import Mathlib

/-!
Shallow embedding of the pet-finder canister
(src/src/icp_rust_boilerplate_backend/src/lib.rs) and proofs about its
operations.  Strings, timestamps and caller identities are passed explicitly;
the two stable maps are modelled by their observable lookup function and the
u64 id counter by a natural number reduced modulo 2 ^ 64 where the source
performs u64 arithmetic.
-/

namespace PetFinder

/-- Modulus of the u64 counter cell used by the id allocator. -/
def u64Mod : Nat := 2 ^ 64

/-- The Pet struct of lib.rs. -/
structure Pet where
  id : Nat
  pet_name : String
  pet_breed : String
  pet_color : String
  pet_photo : String
  owner : String
  is_lost : Bool
  lost_location : Option String
  created_at : Nat
  updated_at : Option Nat
deriving DecidableEq, Repr

/-- The FoundPetReport struct of lib.rs. -/
structure FoundPetReport where
  pet_id : Nat
  finder_name : String
  found_location : String
  created_at : Nat
deriving DecidableEq, Repr

/-- The PetPayload struct of lib.rs. -/
structure PetPayload where
  pet_name : String
  pet_breed : String
  pet_color : String
  pet_photo : String
deriving DecidableEq, Repr

/-- The FoundPetReportPayload struct of lib.rs. -/
structure FoundPetReportPayload where
  finder_name : String
  found_location : String
deriving DecidableEq, Repr

/-- The Error enum of lib.rs. -/
inductive Error where
  | NotFound (msg : String)
  | NotAuthorized (msg : String)
  | InvalidInput (msg : String)
deriving DecidableEq, Repr

/-- Canister state: the ID_COUNTER cell and the observable lookup functions of
the two StableBTreeMap instances PET_STORAGE and FOUND_PET_STORAGE. -/
structure State where
  counter : Nat
  pets : Nat → Option Pet
  found : Nat → Option FoundPetReport

/-- Initial state: counter cell initialised to 0, both maps empty. -/
def initState : State :=
  { counter := 0, pets := fun _ => none, found := fun _ => none }

/-- Lookup function after a StableBTreeMap insert (replace semantics). -/
def mapInsert {α : Type} (m : Nat → Option α) (k : Nat) (v : α) : Nat → Option α :=
  fun q => if q = k then some v else m q

/-- Lookup function after a StableBTreeMap remove. -/
def mapRemove {α : Type} (m : Nat → Option α) (k : Nat) : Nat → Option α :=
  fun q => if q = k then none else m q

/-- Modelled from the spec: the id allocation in register_pet reads the current
counter value and stores current + 1 through Cell set of the
ic-stable-structures crate, whose source is not part of this repository; per
spec section 4.2 the allocator returns the new value (post-increment
semantics, first allocated id 1 given initial value 0).  The u64 addition is
reduced modulo 2 ^ 64 as release-mode wrapping arithmetic does. -/
def allocate_id (s : State) : Nat × State :=
  ((s.counter + 1) % u64Mod, { s with counter := (s.counter + 1) % u64Mod })

/-- Helper do_insert_pet of lib.rs: insert the pet under the key pet.id. -/
def do_insert_pet (pet : Pet) (s : State) : State :=
  { s with pets := mapInsert s.pets pet.id pet }

/-- The register_pet update call of lib.rs. -/
def register_pet (caller : String) (now : Nat) (payload : PetPayload) (s : State) :
    Except Error Pet × State :=
  if payload.pet_name.isEmpty || payload.pet_breed.isEmpty
      || payload.pet_color.isEmpty || payload.pet_photo.isEmpty then
    (Except.error (Error.InvalidInput "All fields in the payload must be non-empty"), s)
  else
    let a := allocate_id s
    let pet : Pet :=
      { id := a.1, pet_name := payload.pet_name, pet_breed := payload.pet_breed,
        pet_color := payload.pet_color, pet_photo := payload.pet_photo,
        owner := caller, is_lost := false, lost_location := none,
        created_at := now, updated_at := none }
    (Except.ok pet, do_insert_pet pet a.2)

/-- The report_lost_pet update call of lib.rs. -/
def report_lost_pet (caller : String) (now : Nat) (id : Nat) (lost_location : String)
    (s : State) : Except Error Pet × State :=
  if lost_location.isEmpty then
    (Except.error (Error.InvalidInput "Lost location must not be empty"), s)
  else
    match s.pets id with
    | some pet =>
      if pet.owner ≠ caller then
        (Except.error (Error.NotAuthorized "You are not the owner of this pet"), s)
      else
        let pet2 : Pet :=
          { pet with is_lost := true, lost_location := some lost_location,
                     updated_at := some now }
        (Except.ok pet2, { s with pets := mapInsert s.pets id pet2 })
    | none =>
      (Except.error (Error.NotFound ("Pet with ID " ++ toString id ++ " not found")), s)

/-- The report_found_pet update call of lib.rs (no ownership check). -/
def report_found_pet (_caller : String) (now : Nat) (id : Nat)
    (payload : FoundPetReportPayload) (s : State) : Except Error Pet × State :=
  if payload.finder_name.isEmpty || payload.found_location.isEmpty then
    (Except.error (Error.InvalidInput "Finder name and found location must be non-empty"), s)
  else
    match s.pets id with
    | some pet =>
      if pet.is_lost = false then
        (Except.error (Error.InvalidInput "Pet is not reported as lost"), s)
      else
        let report : FoundPetReport :=
          { pet_id := id, finder_name := payload.finder_name,
            found_location := payload.found_location, created_at := now }
        let pet2 : Pet :=
          { pet with is_lost := false, lost_location := none, updated_at := some now }
        (Except.ok pet2,
          { s with pets := mapInsert s.pets id pet2,
                   found := mapInsert s.found id report })
    | none =>
      (Except.error (Error.NotFound ("Pet with ID " ++ toString id ++ " not found")), s)

/-- The delete_pet update call of lib.rs. -/
def delete_pet (caller : String) (id : Nat) (s : State) : Except Error String × State :=
  match s.pets id with
  | some pet =>
    if pet.owner ≠ caller then
      (Except.error (Error.NotAuthorized "You are not the owner of this pet"), s)
    else
      (Except.ok ("Pet with ID " ++ toString id ++ " has been successfully deleted."),
        { s with pets := mapRemove s.pets id })
  | none =>
    (Except.error (Error.NotFound ("Pet with ID " ++ toString id ++ " not found")), s)

/-- The update_pet_info update call of lib.rs. -/
def update_pet_info (caller : String) (now : Nat) (id : Nat) (payload : PetPayload)
    (s : State) : Except Error Pet × State :=
  if payload.pet_name.isEmpty || payload.pet_breed.isEmpty
      || payload.pet_color.isEmpty || payload.pet_photo.isEmpty then
    (Except.error (Error.InvalidInput "All fields in the payload must be non-empty"), s)
  else
    match s.pets id with
    | some pet =>
      if pet.owner ≠ caller then
        (Except.error (Error.NotAuthorized "You are not the owner of this pet"), s)
      else
        let pet2 : Pet :=
          { pet with pet_name := payload.pet_name, pet_breed := payload.pet_breed,
                     pet_color := payload.pet_color, pet_photo := payload.pet_photo,
                     updated_at := some now }
        (Except.ok pet2, { s with pets := mapInsert s.pets id pet2 })
    | none =>
      (Except.error (Error.NotFound ("Pet with ID " ++ toString id ++ " not found")), s)

/-- The get_pet query call of lib.rs. -/
def get_pet (id : Nat) (s : State) : Option Pet := s.pets id

/-- One update call of the canister together with its transport-supplied
caller identity and timestamp. -/
inductive Op where
  | register (caller : String) (now : Nat) (payload : PetPayload)
  | updateInfo (caller : String) (now : Nat) (id : Nat) (payload : PetPayload)
  | reportLost (caller : String) (now : Nat) (id : Nat) (lost_location : String)
  | reportFound (caller : String) (now : Nat) (id : Nat) (payload : FoundPetReportPayload)
  | deletePet (caller : String) (id : Nat)
deriving DecidableEq, Repr

/-- Uniform result of one update call. -/
inductive OpResult where
  | okPet (pet : Pet)
  | okMsg (msg : String)
  | err (e : Error)
deriving DecidableEq, Repr

/-- Lift a pet-returning call into the uniform result type. -/
def liftPet (r : Except Error Pet × State) : OpResult × State :=
  match r with
  | (Except.ok pet, s) => (OpResult.okPet pet, s)
  | (Except.error e, s) => (OpResult.err e, s)

/-- Lift a message-returning call into the uniform result type. -/
def liftMsg (r : Except Error String × State) : OpResult × State :=
  match r with
  | (Except.ok msg, s) => (OpResult.okMsg msg, s)
  | (Except.error e, s) => (OpResult.err e, s)

/-- Execute one update call on a state. -/
def applyOp (s : State) (op : Op) : OpResult × State :=
  match op with
  | Op.register caller now payload => liftPet (register_pet caller now payload s)
  | Op.updateInfo caller now id payload => liftPet (update_pet_info caller now id payload s)
  | Op.reportLost caller now id loc => liftPet (report_lost_pet caller now id loc s)
  | Op.reportFound caller now id payload => liftPet (report_found_pet caller now id payload s)
  | Op.deletePet caller id => liftMsg (delete_pet caller id s)

/-- Execute a sequence of update calls. -/
def runOps (s : State) : List Op → State
  | [] => s
  | op :: rest => runOps (applyOp s op).2 rest

/-- Validity of a register payload (all four fields non-empty). -/
def payloadValid (p : PetPayload) : Bool :=
  !(p.pet_name.isEmpty || p.pet_breed.isEmpty || p.pet_color.isEmpty || p.pet_photo.isEmpty)

/-- Number of successful register_pet calls in a sequence of update calls. -/
def validRegCount : List Op → Nat
  | [] => 0
  | Op.register _ _ payload :: rest =>
    (if payloadValid payload then 1 else 0) + validRegCount rest
  | _ :: rest => validRegCount rest

/-- Ids returned by the successful register_pet calls of a sequence, in call
order. -/
def regIds (s : State) : List Op → List Nat
  | [] => []
  | op :: rest =>
    match op, applyOp s op with
    | Op.register _ _ _, (OpResult.okPet pet, s2) => pet.id :: regIds s2 rest
    | _, r => regIds r.2 rest

/-- C3: report_found_pet on a stored pet that is not lost, called with
non-empty finder_name and found_location, returns the InvalidInput error (not
NotAuthorized) and leaves the pet store and the found-report store
unchanged. -/
theorem report_found_not_lost_rejected (s : State) (id : Nat) (pet : Pet)
    (c : String) (now : Nat) (payload : FoundPetReportPayload)
    (hpet : s.pets id = some pet) (hlost : pet.is_lost = false)
    (hf : payload.finder_name.isEmpty = false)
    (hl : payload.found_location.isEmpty = false) :
    report_found_pet c now id payload s =
      (Except.error (Error.InvalidInput "Pet is not reported as lost"), s) := by
  unfold report_found_pet
  rw [hf, hl, hpet]
  simp [hlost]

/-- Witness for C3 at a concrete store holding one not-lost pet. -/
theorem report_found_not_lost_rejected_witness :
    (register_pet "alice" 0 ⟨"Rex", "Lab", "Brown", "uri"⟩ initState).2.pets 1 =
      some { id := 1, pet_name := "Rex", pet_breed := "Lab", pet_color := "Brown",
             pet_photo := "uri", owner := "alice", is_lost := false,
             lost_location := none, created_at := 0, updated_at := none } ∧
    report_found_pet "bob" 5 1 ⟨"Bob", "Ave"⟩
        (register_pet "alice" 0 ⟨"Rex", "Lab", "Brown", "uri"⟩ initState).2 =
      (Except.error (Error.InvalidInput "Pet is not reported as lost"),
       (register_pet "alice" 0 ⟨"Rex", "Lab", "Brown", "uri"⟩ initState).2) :=
  ⟨by decide,
   report_found_not_lost_rejected _ 1
     { id := 1, pet_name := "Rex", pet_breed := "Lab", pet_color := "Brown",
       pet_photo := "uri", owner := "alice", is_lost := false,
       lost_location := none, created_at := 0, updated_at := none }
     "bob" 5 ⟨"Bob", "Ave"⟩ (by decide) (by decide) (by decide) (by decide)⟩

/-- Counterexample for C7: on an id with no record and an empty lost_location,
report_lost_pet returns InvalidInput (the emptiness check runs first), not the
NotFound error the claim requires for every lost_location argument. -/
theorem report_lost_missing_pet_empty_loc_cex :
    initState.pets 7 = none ∧
    report_lost_pet "alice" 0 7 "" initState =
      (Except.error (Error.InvalidInput "Lost location must not be empty"), initState) :=
  ⟨rfl, rfl⟩

/-- C7 (amended): report_lost_pet on an id with no record returns the NotFound
error whenever lost_location is non-empty; the empty-location case is rejected
as InvalidInput before the existence check. -/
theorem report_lost_missing_pet_not_found (s : State) (c : String) (now id : Nat)
    (loc : String) (hmiss : s.pets id = none) (hloc : loc.isEmpty = false) :
    report_lost_pet c now id loc s =
      (Except.error (Error.NotFound ("Pet with ID " ++ toString id ++ " not found")), s) := by
  unfold report_lost_pet
  rw [hloc, hmiss]
  simp

/-- Witness for the amended C7 on the empty store. -/
theorem report_lost_missing_pet_not_found_witness :
    initState.pets 7 = none ∧ ("Park" : String).isEmpty = false ∧
    report_lost_pet "alice" 0 7 "Park" initState =
      (Except.error (Error.NotFound ("Pet with ID " ++ toString 7 ++ " not found")), initState) :=
  ⟨rfl, by decide, report_lost_missing_pet_not_found initState "alice" 0 7 "Park" rfl (by decide)⟩

/-- C8: update_pet_info (with valid fields) and delete_pet called by a
non-owner return the NotAuthorized error and leave the stored record in place
and unchanged. -/
theorem non_owner_mutation_rejected (s : State) (id : Nat) (pet : Pet) (c : String)
    (now : Nat) (p : PetPayload)
    (hpet : s.pets id = some pet) (hown : pet.owner ≠ c)
    (hv : (p.pet_name.isEmpty || p.pet_breed.isEmpty || p.pet_color.isEmpty
        || p.pet_photo.isEmpty) = false) :
    update_pet_info c now id p s =
      (Except.error (Error.NotAuthorized "You are not the owner of this pet"), s) ∧
    delete_pet c id s =
      (Except.error (Error.NotAuthorized "You are not the owner of this pet"), s) ∧
    (update_pet_info c now id p s).2.pets id = some pet ∧
    (delete_pet c id s).2.pets id = some pet := by
  have hu : update_pet_info c now id p s =
      (Except.error (Error.NotAuthorized "You are not the owner of this pet"), s) := by
    unfold update_pet_info
    rw [hv, hpet]
    simp [hown]
  have hd : delete_pet c id s =
      (Except.error (Error.NotAuthorized "You are not the owner of this pet"), s) := by
    unfold delete_pet
    rw [hpet]
    simp [hown]
  refine ⟨hu, hd, ?_, ?_⟩
  · rw [hu]; exact hpet
  · rw [hd]; exact hpet

/-- Witness for C8: a pet registered by alice, mutation attempted by bob. -/
theorem non_owner_mutation_rejected_witness :
    (register_pet "alice" 0 ⟨"Rex", "Lab", "Brown", "uri"⟩ initState).2.pets 1 =
      some { id := 1, pet_name := "Rex", pet_breed := "Lab", pet_color := "Brown",
             pet_photo := "uri", owner := "alice", is_lost := false,
             lost_location := none, created_at := 0, updated_at := none } ∧
    (update_pet_info "bob" 9 1 ⟨"A", "B", "C", "D"⟩
        (register_pet "alice" 0 ⟨"Rex", "Lab", "Brown", "uri"⟩ initState).2 =
      (Except.error (Error.NotAuthorized "You are not the owner of this pet"),
       (register_pet "alice" 0 ⟨"Rex", "Lab", "Brown", "uri"⟩ initState).2) ∧
    delete_pet "bob" 1 (register_pet "alice" 0 ⟨"Rex", "Lab", "Brown", "uri"⟩ initState).2 =
      (Except.error (Error.NotAuthorized "You are not the owner of this pet"),
       (register_pet "alice" 0 ⟨"Rex", "Lab", "Brown", "uri"⟩ initState).2) ∧
    (update_pet_info "bob" 9 1 ⟨"A", "B", "C", "D"⟩
        (register_pet "alice" 0 ⟨"Rex", "Lab", "Brown", "uri"⟩ initState).2).2.pets 1 =
      some { id := 1, pet_name := "Rex", pet_breed := "Lab", pet_color := "Brown",
             pet_photo := "uri", owner := "alice", is_lost := false,
             lost_location := none, created_at := 0, updated_at := none } ∧
    (delete_pet "bob" 1
        (register_pet "alice" 0 ⟨"Rex", "Lab", "Brown", "uri"⟩ initState).2).2.pets 1 =
      some { id := 1, pet_name := "Rex", pet_breed := "Lab", pet_color := "Brown",
             pet_photo := "uri", owner := "alice", is_lost := false,
             lost_location := none, created_at := 0, updated_at := none }) :=
  ⟨by decide,
   non_owner_mutation_rejected _ 1
     { id := 1, pet_name := "Rex", pet_breed := "Lab", pet_color := "Brown",
       pet_photo := "uri", owner := "alice", is_lost := false,
       lost_location := none, created_at := 0, updated_at := none }
     "bob" 9 ⟨"A", "B", "C", "D"⟩ (by decide) (by decide) (by decide)⟩

/-- C6: register_pet rejects a payload with any empty field with the
InvalidInput error and leaves the state unchanged; otherwise it returns a
record carrying the payload fields with owner = caller, is_lost = false,
lost_location = none, created_at = now, updated_at = none, and stores exactly
that record in the pet store under its id. -/
theorem register_pet_spec (c : String) (now : Nat) (p : PetPayload) (s : State) :
    ((p.pet_name.isEmpty || p.pet_breed.isEmpty || p.pet_color.isEmpty
        || p.pet_photo.isEmpty) = true →
      register_pet c now p s =
        (Except.error (Error.InvalidInput "All fields in the payload must be non-empty"), s)) ∧
    ((p.pet_name.isEmpty || p.pet_breed.isEmpty || p.pet_color.isEmpty
        || p.pet_photo.isEmpty) = false →
      ∃ pet, (register_pet c now p s).1 = Except.ok pet ∧
        pet.owner = c ∧ pet.is_lost = false ∧ pet.lost_location = none ∧
        pet.created_at = now ∧ pet.updated_at = none ∧
        pet.pet_name = p.pet_name ∧ pet.pet_breed = p.pet_breed ∧
        pet.pet_color = p.pet_color ∧ pet.pet_photo = p.pet_photo ∧
        (register_pet c now p s).2.pets pet.id = some pet) := by
  constructor
  · intro h
    unfold register_pet
    rw [h]
    simp
  · intro h
    unfold register_pet
    rw [h]
    simp only [Bool.false_eq_true, if_false]
    exact ⟨_, rfl, rfl, rfl, rfl, rfl, rfl, rfl, rfl, rfl, rfl,
      by simp [do_insert_pet, mapInsert, allocate_id]⟩

/-- Witness for C6: a valid registration on the empty store. -/
theorem register_pet_spec_witness :
    (("Rex" : String).isEmpty || ("Lab" : String).isEmpty || ("Brown" : String).isEmpty
        || ("uri" : String).isEmpty) = false ∧
    ∃ pet, (register_pet "alice" 7 ⟨"Rex", "Lab", "Brown", "uri"⟩ initState).1 = Except.ok pet ∧
      pet.owner = "alice" ∧ pet.is_lost = false ∧ pet.lost_location = none ∧
      pet.created_at = 7 ∧ pet.updated_at = none ∧
      pet.pet_name = "Rex" ∧ pet.pet_breed = "Lab" ∧
      pet.pet_color = "Brown" ∧ pet.pet_photo = "uri" ∧
      (register_pet "alice" 7 ⟨"Rex", "Lab", "Brown", "uri"⟩ initState).2.pets pet.id = some pet :=
  ⟨by decide, (register_pet_spec "alice" 7 ⟨"Rex", "Lab", "Brown", "uri"⟩ initState).2 (by decide)⟩

/-- C9: a successful delete_pet by the owner removes the record (get_pet
returns none and subsequent delete_pet, update_pet_info with valid fields, and
report_lost_pet with a non-empty location all return NotFound) and leaves the
found-report store untouched. -/
theorem delete_pet_spec (s : State) (id : Nat) (pet : Pet) (c c2 : String)
    (now2 : Nat) (p2 : PetPayload) (loc : String)
    (hpet : s.pets id = some pet) (hown : pet.owner = c)
    (hv : (p2.pet_name.isEmpty || p2.pet_breed.isEmpty || p2.pet_color.isEmpty
        || p2.pet_photo.isEmpty) = false)
    (hloc : loc.isEmpty = false) :
    (delete_pet c id s).1 =
      Except.ok ("Pet with ID " ++ toString id ++ " has been successfully deleted.") ∧
    get_pet id (delete_pet c id s).2 = none ∧
    (delete_pet c2 id (delete_pet c id s).2).1 =
      Except.error (Error.NotFound ("Pet with ID " ++ toString id ++ " not found")) ∧
    (update_pet_info c2 now2 id p2 (delete_pet c id s).2).1 =
      Except.error (Error.NotFound ("Pet with ID " ++ toString id ++ " not found")) ∧
    (report_lost_pet c2 now2 id loc (delete_pet c id s).2).1 =
      Except.error (Error.NotFound ("Pet with ID " ++ toString id ++ " not found")) ∧
    (delete_pet c id s).2.found = s.found := by
  have hd : delete_pet c id s =
      (Except.ok ("Pet with ID " ++ toString id ++ " has been successfully deleted."),
       { s with pets := mapRemove s.pets id }) := by
    unfold delete_pet
    rw [hpet]
    simp [hown]
  have hmiss : (delete_pet c id s).2.pets id = none := by
    rw [hd]
    simp [mapRemove]
  refine ⟨by rw [hd], ?_, ?_, ?_, ?_, by rw [hd]⟩
  · unfold get_pet
    exact hmiss
  · rw [hd]
    unfold delete_pet
    simp [mapRemove]
  · rw [hd]
    unfold update_pet_info
    rw [hv]
    simp [mapRemove]
  · rw [hd]
    unfold report_lost_pet
    rw [hloc]
    simp [mapRemove]

/-- Witness for C9: alice registers a pet and deletes it; bob then fails to
touch the removed id. -/
theorem delete_pet_spec_witness :
    (register_pet "alice" 0 ⟨"Rex", "Lab", "Brown", "uri"⟩ initState).2.pets 1 =
      some { id := 1, pet_name := "Rex", pet_breed := "Lab", pet_color := "Brown",
             pet_photo := "uri", owner := "alice", is_lost := false,
             lost_location := none, created_at := 0, updated_at := none } ∧
    ((delete_pet "alice" 1 (register_pet "alice" 0 ⟨"Rex", "Lab", "Brown", "uri"⟩ initState).2).1 =
      Except.ok ("Pet with ID " ++ toString 1 ++ " has been successfully deleted.") ∧
    get_pet 1 (delete_pet "alice" 1
        (register_pet "alice" 0 ⟨"Rex", "Lab", "Brown", "uri"⟩ initState).2).2 = none ∧
    (delete_pet "bob" 1 (delete_pet "alice" 1
        (register_pet "alice" 0 ⟨"Rex", "Lab", "Brown", "uri"⟩ initState).2).2).1 =
      Except.error (Error.NotFound ("Pet with ID " ++ toString 1 ++ " not found")) ∧
    (update_pet_info "bob" 9 1 ⟨"A", "B", "C", "D"⟩ (delete_pet "alice" 1
        (register_pet "alice" 0 ⟨"Rex", "Lab", "Brown", "uri"⟩ initState).2).2).1 =
      Except.error (Error.NotFound ("Pet with ID " ++ toString 1 ++ " not found")) ∧
    (report_lost_pet "bob" 9 1 "Park" (delete_pet "alice" 1
        (register_pet "alice" 0 ⟨"Rex", "Lab", "Brown", "uri"⟩ initState).2).2).1 =
      Except.error (Error.NotFound ("Pet with ID " ++ toString 1 ++ " not found")) ∧
    (delete_pet "alice" 1
        (register_pet "alice" 0 ⟨"Rex", "Lab", "Brown", "uri"⟩ initState).2).2.found =
      (register_pet "alice" 0 ⟨"Rex", "Lab", "Brown", "uri"⟩ initState).2.found) :=
  ⟨by decide,
   delete_pet_spec _ 1
     { id := 1, pet_name := "Rex", pet_breed := "Lab", pet_color := "Brown",
       pet_photo := "uri", owner := "alice", is_lost := false,
       lost_location := none, created_at := 0, updated_at := none }
     "alice" "bob" 9 ⟨"A", "B", "C", "D"⟩ "Park"
     (by decide) (by decide) (by decide) (by decide)⟩

/-- C5: after the owner reports the pet lost and any caller (no ownership
check) reports it found with non-empty fields, the stored pet has
is_lost = false and lost_location = none, and the found-report store maps the
id to exactly the supplied finder and location (overwriting any prior
report). -/
theorem lost_then_found_roundtrip (s : State) (id : Nat) (pet : Pet)
    (owner c2 : String) (t1 t2 : Nat) (loc : String) (payload : FoundPetReportPayload)
    (hpet : s.pets id = some pet) (hown : pet.owner = owner)
    (hloc : loc.isEmpty = false)
    (hf : payload.finder_name.isEmpty = false)
    (hl : payload.found_location.isEmpty = false) :
    (∃ pet2,
      (report_found_pet c2 t2 id payload (report_lost_pet owner t1 id loc s).2).1 =
        Except.ok pet2 ∧
      get_pet id (report_found_pet c2 t2 id payload (report_lost_pet owner t1 id loc s).2).2 =
        some pet2 ∧
      pet2.is_lost = false ∧ pet2.lost_location = none) ∧
    (report_found_pet c2 t2 id payload (report_lost_pet owner t1 id loc s).2).2.found id =
      some { pet_id := id, finder_name := payload.finder_name,
             found_location := payload.found_location, created_at := t2 } := by
  have h2 : (report_lost_pet owner t1 id loc s).2.pets id =
      some { pet with is_lost := true, lost_location := some loc,
                      updated_at := some t1 } := by
    unfold report_lost_pet
    rw [hloc, hpet]
    simp [hown, mapInsert]
  have h3a : (report_found_pet c2 t2 id payload (report_lost_pet owner t1 id loc s).2).1 =
      Except.ok { pet with is_lost := false, lost_location := none,
                           updated_at := some t2 } := by
    unfold report_found_pet
    rw [hf, hl, h2]
    simp
  have h3b : (report_found_pet c2 t2 id payload
      (report_lost_pet owner t1 id loc s).2).2.pets id =
      some { pet with is_lost := false, lost_location := none,
                      updated_at := some t2 } := by
    unfold report_found_pet
    rw [hf, hl, h2]
    simp [mapInsert]
  have h3c : (report_found_pet c2 t2 id payload
      (report_lost_pet owner t1 id loc s).2).2.found id =
      some { pet_id := id, finder_name := payload.finder_name,
             found_location := payload.found_location, created_at := t2 } := by
    unfold report_found_pet
    rw [hf, hl, h2]
    simp [mapInsert]
  exact ⟨⟨{ pet with is_lost := false, lost_location := none, updated_at := some t2 },
    h3a, h3b, rfl, rfl⟩, h3c⟩

/-- Witness for C5: register by alice, report lost by alice, report found by
bob. -/
theorem lost_then_found_roundtrip_witness :
    (register_pet "alice" 0 ⟨"Rex", "Lab", "Brown", "uri"⟩ initState).2.pets 1 =
      some { id := 1, pet_name := "Rex", pet_breed := "Lab", pet_color := "Brown",
             pet_photo := "uri", owner := "alice", is_lost := false,
             lost_location := none, created_at := 0, updated_at := none } ∧
    ((∃ pet2,
      (report_found_pet "bob" 6 1 ⟨"Bob", "Ave"⟩ (report_lost_pet "alice" 3 1 "Park"
          (register_pet "alice" 0 ⟨"Rex", "Lab", "Brown", "uri"⟩ initState).2).2).1 =
        Except.ok pet2 ∧
      get_pet 1 (report_found_pet "bob" 6 1 ⟨"Bob", "Ave"⟩ (report_lost_pet "alice" 3 1 "Park"
          (register_pet "alice" 0 ⟨"Rex", "Lab", "Brown", "uri"⟩ initState).2).2).2 =
        some pet2 ∧
      pet2.is_lost = false ∧ pet2.lost_location = none) ∧
    (report_found_pet "bob" 6 1 ⟨"Bob", "Ave"⟩ (report_lost_pet "alice" 3 1 "Park"
        (register_pet "alice" 0 ⟨"Rex", "Lab", "Brown", "uri"⟩ initState).2).2).2.found 1 =
      some { pet_id := 1, finder_name := "Bob", found_location := "Ave", created_at := 6 }) :=
  ⟨by decide,
   lost_then_found_roundtrip _ 1
     { id := 1, pet_name := "Rex", pet_breed := "Lab", pet_color := "Brown",
       pet_photo := "uri", owner := "alice", is_lost := false,
       lost_location := none, created_at := 0, updated_at := none }
     "alice" "bob" 3 6 "Park" ⟨"Bob", "Ave"⟩
     (by decide) (by decide) (by decide) (by decide) (by decide)⟩

theorem liftPet_snd (r : Except Error Pet × State) : (liftPet r).2 = r.2 := by
  rcases r with ⟨x, t⟩
  cases x <;> rfl

theorem liftMsg_snd (r : Except Error String × State) : (liftMsg r).2 = r.2 := by
  rcases r with ⟨x, t⟩
  cases x <;> rfl

theorem liftPet_err (r : Except Error Pet × State) (e : Error)
    (h : (liftPet r).1 = OpResult.err e) : r.1 = Except.error e := by
  rcases r with ⟨x, t⟩
  cases x with
  | ok pet => simp [liftPet] at h
  | error a => simp [liftPet] at h ⊢; exact h

theorem liftMsg_err (r : Except Error String × State) (e : Error)
    (h : (liftMsg r).1 = OpResult.err e) : r.1 = Except.error e := by
  rcases r with ⟨x, t⟩
  cases x with
  | ok msg => simp [liftMsg] at h
  | error a => simp [liftMsg] at h ⊢; exact h

theorem register_pet_err_frame (c : String) (now : Nat) (p : PetPayload) (s : State)
    (e : Error) (h : (register_pet c now p s).1 = Except.error e) :
    (register_pet c now p s).2 = s := by
  revert h
  unfold register_pet
  split
  · intro _; rfl
  · intro h; simp at h

theorem report_lost_err_frame (c : String) (now id : Nat) (loc : String) (s : State)
    (e : Error) (h : (report_lost_pet c now id loc s).1 = Except.error e) :
    (report_lost_pet c now id loc s).2 = s := by
  revert h
  unfold report_lost_pet
  split
  · intro _; rfl
  · split
    · split
      · intro _; rfl
      · intro h; simp at h
    · intro _; rfl

theorem report_found_err_frame (c : String) (now id : Nat)
    (payload : FoundPetReportPayload) (s : State) (e : Error)
    (h : (report_found_pet c now id payload s).1 = Except.error e) :
    (report_found_pet c now id payload s).2 = s := by
  revert h
  unfold report_found_pet
  split
  · intro _; rfl
  · split
    · split
      · intro _; rfl
      · intro h; simp at h
    · intro _; rfl

theorem delete_pet_err_frame (c : String) (id : Nat) (s : State) (e : Error)
    (h : (delete_pet c id s).1 = Except.error e) :
    (delete_pet c id s).2 = s := by
  revert h
  unfold delete_pet
  split
  · split
    · intro _; rfl
    · intro h; simp at h
  · intro _; rfl

theorem update_pet_info_err_frame (c : String) (now id : Nat) (p : PetPayload)
    (s : State) (e : Error)
    (h : (update_pet_info c now id p s).1 = Except.error e) :
    (update_pet_info c now id p s).2 = s := by
  revert h
  unfold update_pet_info
  split
  · intro _; rfl
  · split
    · split
      · intro _; rfl
      · intro h; simp at h
    · intro _; rfl

/-- C4: every update call that returns an error leaves the whole state — pet
store, found-report store and id counter — unchanged. -/
theorem rejected_op_frame (s : State) (op : Op) (e : Error)
    (h : (applyOp s op).1 = OpResult.err e) : (applyOp s op).2 = s := by
  cases op with
  | register c now p =>
    simp only [applyOp] at h ⊢
    exact (liftPet_snd _).trans (register_pet_err_frame c now p s e (liftPet_err _ e h))
  | updateInfo c now id p =>
    simp only [applyOp] at h ⊢
    exact (liftPet_snd _).trans (update_pet_info_err_frame c now id p s e (liftPet_err _ e h))
  | reportLost c now id loc =>
    simp only [applyOp] at h ⊢
    exact (liftPet_snd _).trans (report_lost_err_frame c now id loc s e (liftPet_err _ e h))
  | reportFound c now id payload =>
    simp only [applyOp] at h ⊢
    exact (liftPet_snd _).trans (report_found_err_frame c now id payload s e (liftPet_err _ e h))
  | deletePet c id =>
    simp only [applyOp] at h ⊢
    exact (liftMsg_snd _).trans (delete_pet_err_frame c id s e (liftMsg_err _ e h))

/-- Witness for C4: a delete of an id absent from the empty store errors and
keeps the state. -/
theorem rejected_op_frame_witness :
    (applyOp initState (Op.deletePet "alice" 0)).1 =
      OpResult.err (Error.NotFound ("Pet with ID " ++ toString 0 ++ " not found")) ∧
    (applyOp initState (Op.deletePet "alice" 0)).2 = initState :=
  ⟨rfl, rejected_op_frame initState (Op.deletePet "alice" 0)
    (Error.NotFound ("Pet with ID " ++ toString 0 ++ " not found")) rfl⟩

/-- Record invariant of the spec: lost_location is present iff is_lost. -/
def stateInv (s : State) : Prop :=
  ∀ id pet, s.pets id = some pet → pet.lost_location.isSome = pet.is_lost

theorem stateInv_initState : stateInv initState := by
  intro id pet hx
  simp [initState] at hx

theorem stateInv_applyOp (s : State) (op : Op) (h : stateInv s) :
    stateInv (applyOp s op).2 := by
  cases op with
  | register c now p =>
    simp only [applyOp]
    rw [liftPet_snd]
    unfold register_pet stateInv
    split
    · exact h
    · intro q p2 hq
      simp only [do_insert_pet, allocate_id, mapInsert] at hq
      split at hq
      · simp at hq; subst hq; rfl
      · exact h q p2 hq
  | updateInfo c now id p =>
    simp only [applyOp]
    rw [liftPet_snd]
    unfold update_pet_info stateInv
    split
    · exact h
    · split
      · rename_i pet heq
        split
        · exact h
        · intro q p2 hq
          simp only [mapInsert] at hq
          split at hq
          · simp at hq; subst hq; exact h id pet heq
          · exact h q p2 hq
      · exact h
  | reportLost c now id loc =>
    simp only [applyOp]
    rw [liftPet_snd]
    unfold report_lost_pet stateInv
    split
    · exact h
    · split
      · split
        · exact h
        · intro q p2 hq
          simp only [mapInsert] at hq
          split at hq
          · simp at hq; subst hq; rfl
          · exact h q p2 hq
      · exact h
  | reportFound c now id payload =>
    simp only [applyOp]
    rw [liftPet_snd]
    unfold report_found_pet stateInv
    split
    · exact h
    · split
      · split
        · exact h
        · intro q p2 hq
          simp only [mapInsert] at hq
          split at hq
          · simp at hq; subst hq; rfl
          · exact h q p2 hq
      · exact h
  | deletePet c id =>
    simp only [applyOp]
    rw [liftMsg_snd]
    unfold delete_pet stateInv
    split
    · split
      · exact h
      · intro q p2 hq
        simp only [mapRemove] at hq
        split at hq
        · simp at hq
        · exact h q p2 hq
    · exact h

theorem stateInv_runOps (ops : List Op) (s : State) (h : stateInv s) :
    stateInv (runOps s ops) := by
  induction ops generalizing s with
  | nil => exact h
  | cons op rest ih => exact ih (applyOp s op).2 (stateInv_applyOp s op h)

/-- C2: every state reachable from the initial state stores only pet records
satisfying lost_location.isSome = is_lost, and every operation preserves this
invariant from any state satisfying it. -/
theorem lost_location_iff_is_lost (ops : List Op) (s : State) (op : Op)
    (h : stateInv s) :
    stateInv (runOps initState ops) ∧ stateInv (applyOp s op).2 :=
  ⟨stateInv_runOps ops initState stateInv_initState, stateInv_applyOp s op h⟩

/-- Witness for C2 on a one-register trace and a delete step from the initial
state. -/
theorem lost_location_iff_is_lost_witness :
    stateInv initState ∧
    (stateInv (runOps initState [Op.register "alice" 0 ⟨"Rex", "Lab", "Brown", "uri"⟩]) ∧
     stateInv (applyOp initState (Op.deletePet "bob" 3)).2) :=
  ⟨stateInv_initState,
   lost_location_iff_is_lost [Op.register "alice" 0 ⟨"Rex", "Lab", "Brown", "uri"⟩]
     initState (Op.deletePet "bob" 3) stateInv_initState⟩

/-- Key invariant: each pet-store entry is stored under the id of its
record. -/
def keyInv (s : State) : Prop :=
  ∀ id pet, s.pets id = some pet → pet.id = id

theorem keyInv_initState : keyInv initState := by
  intro id pet hx
  simp [initState] at hx

theorem keyInv_applyOp (s : State) (op : Op) (h : keyInv s) :
    keyInv (applyOp s op).2 := by
  cases op with
  | register c now p =>
    simp only [applyOp]
    rw [liftPet_snd]
    unfold register_pet keyInv
    split
    · exact h
    · intro q p2 hq
      simp only [do_insert_pet, allocate_id, mapInsert] at hq
      split at hq
      · rename_i hcond
        simp at hq
        subst hq
        exact hcond.symm
      · exact h q p2 hq
  | updateInfo c now id p =>
    simp only [applyOp]
    rw [liftPet_snd]
    unfold update_pet_info keyInv
    split
    · exact h
    · split
      · rename_i pet heq
        split
        · exact h
        · intro q p2 hq
          simp only [mapInsert] at hq
          split at hq
          · rename_i hcond
            simp at hq
            subst hq
            rw [hcond]
            exact h id pet heq
          · exact h q p2 hq
      · exact h
  | reportLost c now id loc =>
    simp only [applyOp]
    rw [liftPet_snd]
    unfold report_lost_pet keyInv
    split
    · exact h
    · split
      · rename_i pet heq
        split
        · exact h
        · intro q p2 hq
          simp only [mapInsert] at hq
          split at hq
          · rename_i hcond
            simp at hq
            subst hq
            rw [hcond]
            exact h id pet heq
          · exact h q p2 hq
      · exact h
  | reportFound c now id payload =>
    simp only [applyOp]
    rw [liftPet_snd]
    unfold report_found_pet keyInv
    split
    · exact h
    · split
      · rename_i pet heq
        split
        · exact h
        · intro q p2 hq
          simp only [mapInsert] at hq
          split at hq
          · rename_i hcond
            simp at hq
            subst hq
            rw [hcond]
            exact h id pet heq
          · exact h q p2 hq
      · exact h
  | deletePet c id =>
    simp only [applyOp]
    rw [liftMsg_snd]
    unfold delete_pet keyInv
    split
    · split
      · exact h
      · intro q p2 hq
        simp only [mapRemove] at hq
        split at hq
        · simp at hq
        · exact h q p2 hq
    · exact h

theorem keyInv_runOps (ops : List Op) (s : State) (h : keyInv s) :
    keyInv (runOps s ops) := by
  induction ops generalizing s with
  | nil => exact h
  | cons op rest ih => exact ih (applyOp s op).2 (keyInv_applyOp s op h)

/-- C10: in every reachable state each pet-store entry is keyed by the id
field of its record, every operation preserves this, and get_pet id returning
some pet implies pet.id = id. -/
theorem pet_key_matches_id (ops : List Op) (s : State) (op : Op) (h : keyInv s) :
    keyInv (runOps initState ops) ∧ keyInv (applyOp s op).2 ∧
    (∀ id pet, get_pet id (runOps initState ops) = some pet → pet.id = id) :=
  ⟨keyInv_runOps ops initState keyInv_initState, keyInv_applyOp s op h,
   fun id pet hx => keyInv_runOps ops initState keyInv_initState id pet hx⟩

/-- Witness for C10 on a one-register trace and an update step from the
initial state. -/
theorem pet_key_matches_id_witness :
    keyInv initState ∧
    (keyInv (runOps initState [Op.register "alice" 0 ⟨"Rex", "Lab", "Brown", "uri"⟩]) ∧
     keyInv (applyOp initState (Op.updateInfo "bob" 2 3 ⟨"A", "B", "C", "D"⟩)).2 ∧
     (∀ id pet, get_pet id
         (runOps initState [Op.register "alice" 0 ⟨"Rex", "Lab", "Brown", "uri"⟩]) =
           some pet → pet.id = id)) :=
  ⟨keyInv_initState,
   pet_key_matches_id [Op.register "alice" 0 ⟨"Rex", "Lab", "Brown", "uri"⟩]
     initState (Op.updateInfo "bob" 2 3 ⟨"A", "B", "C", "D"⟩) keyInv_initState⟩

theorem register_applyOp_fst (c : String) (now : Nat) (p : PetPayload) (s : State)
    (hv : (p.pet_name.isEmpty || p.pet_breed.isEmpty || p.pet_color.isEmpty
        || p.pet_photo.isEmpty) = false) :
    (applyOp s (Op.register c now p)).1 =
      OpResult.okPet
        { id := (s.counter + 1) % u64Mod, pet_name := p.pet_name,
          pet_breed := p.pet_breed, pet_color := p.pet_color, pet_photo := p.pet_photo,
          owner := c, is_lost := false, lost_location := none, created_at := now,
          updated_at := none } := by
  simp only [applyOp]
  unfold register_pet
  rw [hv]
  simp [liftPet, allocate_id]

theorem register_counter_valid (c : String) (now : Nat) (p : PetPayload) (s : State)
    (hv : (p.pet_name.isEmpty || p.pet_breed.isEmpty || p.pet_color.isEmpty
        || p.pet_photo.isEmpty) = false) :
    (applyOp s (Op.register c now p)).2.counter = (s.counter + 1) % u64Mod := by
  simp only [applyOp]
  rw [liftPet_snd]
  unfold register_pet
  rw [hv]
  simp [allocate_id, do_insert_pet]

theorem register_applyOp_invalid (c : String) (now : Nat) (p : PetPayload) (s : State)
    (hv : (p.pet_name.isEmpty || p.pet_breed.isEmpty || p.pet_color.isEmpty
        || p.pet_photo.isEmpty) = true) :
    applyOp s (Op.register c now p) =
      (OpResult.err (Error.InvalidInput "All fields in the payload must be non-empty"), s) := by
  simp only [applyOp]
  unfold register_pet
  rw [hv]
  simp [liftPet]

theorem updateInfo_counter (c : String) (now id : Nat) (p : PetPayload) (s : State) :
    (applyOp s (Op.updateInfo c now id p)).2.counter = s.counter := by
  simp only [applyOp]
  rw [liftPet_snd]
  unfold update_pet_info
  split
  · rfl
  · split
    · split
      · rfl
      · rfl
    · rfl

theorem reportLost_counter (c : String) (now id : Nat) (loc : String) (s : State) :
    (applyOp s (Op.reportLost c now id loc)).2.counter = s.counter := by
  simp only [applyOp]
  rw [liftPet_snd]
  unfold report_lost_pet
  split
  · rfl
  · split
    · split
      · rfl
      · rfl
    · rfl

theorem reportFound_counter (c : String) (now id : Nat)
    (payload : FoundPetReportPayload) (s : State) :
    (applyOp s (Op.reportFound c now id payload)).2.counter = s.counter := by
  simp only [applyOp]
  rw [liftPet_snd]
  unfold report_found_pet
  split
  · rfl
  · split
    · split
      · rfl
      · rfl
    · rfl

theorem deletePet_counter (c : String) (id : Nat) (s : State) :
    (applyOp s (Op.deletePet c id)).2.counter = s.counter := by
  simp only [applyOp]
  rw [liftMsg_snd]
  unfold delete_pet
  split
  · split
    · rfl
    · rfl
  · rfl

theorem mod_shift (c i : Nat) :
    ((c + 1) % u64Mod + i + 1) % u64Mod = (c + (i + 1) + 1) % u64Mod := by
  rw [Nat.add_assoc, Nat.mod_add_mod, Nat.add_right_comm c 1 (i + 1)]

theorem regIds_eq (ops : List Op) : ∀ s : State,
    regIds s ops =
      List.map (fun i => (s.counter + i + 1) % u64Mod)
        (List.range (validRegCount ops)) := by
  induction ops with
  | nil => intro s; rfl
  | cons op rest ih =>
    intro s
    cases op with
    | register c now p =>
      by_cases hv : (p.pet_name.isEmpty || p.pet_breed.isEmpty || p.pet_color.isEmpty
          || p.pet_photo.isEmpty) = true
      · have happ := register_applyOp_invalid c now p s hv
        have hk : validRegCount (Op.register c now p :: rest) = validRegCount rest := by
          simp only [validRegCount, payloadValid, hv, Bool.not_true, Bool.false_eq_true,
            if_false, Nat.zero_add]
        rw [hk]
        simp only [regIds, happ]
        exact ih s
      · rw [Bool.not_eq_true] at hv
        have hfst := register_applyOp_fst c now p s hv
        have hc := register_counter_valid c now p s hv
        have hk : validRegCount (Op.register c now p :: rest) = validRegCount rest + 1 := by
          simp only [validRegCount, payloadValid, hv, Bool.not_false, if_true]
          omega
        rcases happ : applyOp s (Op.register c now p) with ⟨r1, s2⟩
        rw [happ] at hfst hc
        have hfst2 : r1 = _ := hfst
        have hc2 : s2.counter = (s.counter + 1) % u64Mod := hc
        subst hfst2
        rw [hk]
        simp only [regIds, happ]
        rw [ih s2, hc2, List.range_succ_eq_map, List.map_cons, List.map_map]
        congr 1
        have htail : (fun i => ((s.counter + 1) % u64Mod + i + 1) % u64Mod)
            = (fun i => (s.counter + i + 1) % u64Mod) ∘ Nat.succ := by
          funext i
          exact mod_shift s.counter i
        rw [htail]
    | updateInfo c now id p =>
      have hc := updateInfo_counter c now id p s
      rcases happ : applyOp s (Op.updateInfo c now id p) with ⟨r1, s2⟩
      rw [happ] at hc
      have hc2 : s2.counter = s.counter := hc
      simp only [regIds, happ]
      rw [ih s2, hc2]
      rfl
    | reportLost c now id loc =>
      have hc := reportLost_counter c now id loc s
      rcases happ : applyOp s (Op.reportLost c now id loc) with ⟨r1, s2⟩
      rw [happ] at hc
      have hc2 : s2.counter = s.counter := hc
      simp only [regIds, happ]
      rw [ih s2, hc2]
      rfl
    | reportFound c now id payload =>
      have hc := reportFound_counter c now id payload s
      rcases happ : applyOp s (Op.reportFound c now id payload) with ⟨r1, s2⟩
      rw [happ] at hc
      have hc2 : s2.counter = s.counter := hc
      simp only [regIds, happ]
      rw [ih s2, hc2]
      rfl
    | deletePet c id =>
      have hc := deletePet_counter c id s
      rcases happ : applyOp s (Op.deletePet c id) with ⟨r1, s2⟩
      rw [happ] at hc
      have hc2 : s2.counter = s.counter := hc
      simp only [regIds, happ]
      rw [ih s2, hc2]
      rfl

/-- C1: along any trace of update calls from the initial state with fewer
than 2 ^ 64 successful registrations, the ids returned by successful
register_pet calls are strictly increasing and pairwise distinct, and the
first allocated id is 1 (allocator modelled from spec section 4.2,
post-increment semantics over the initial counter value 0). -/
theorem register_ids_strictly_increasing (ops : List Op)
    (h : validRegCount ops < u64Mod) :
    List.Pairwise (· < ·) (regIds initState ops) ∧
    (regIds initState ops).Nodup ∧
    (0 < validRegCount ops → (regIds initState ops).head? = some 1) := by
  have he : regIds initState ops =
      List.map (fun i => i + 1) (List.range (validRegCount ops)) := by
    rw [regIds_eq ops initState]
    apply List.map_congr_left
    intro i hi
    rw [List.mem_range] at hi
    show (initState.counter + i + 1) % u64Mod = i + 1
    have h0 : initState.counter = 0 := rfl
    rw [h0, Nat.zero_add, Nat.mod_eq_of_lt (Nat.lt_of_le_of_lt (Nat.succ_le_of_lt hi) h)]
  have hp : List.Pairwise (· < ·) (regIds initState ops) := by
    rw [he, List.pairwise_map]
    exact (List.pairwise_lt_range (validRegCount ops)).imp
      (fun hab => Nat.succ_lt_succ hab)
  refine ⟨hp, hp.imp (fun hab => Nat.ne_of_lt hab), ?_⟩
  intro hk
  rw [he]
  cases hn : validRegCount ops with
  | zero => rw [hn] at hk; exact absurd hk (Nat.lt_irrefl 0)
  | succ j =>
    rw [List.range_succ_eq_map]
    rfl

/-- Witness for C1 on a two-registration trace. -/
theorem register_ids_strictly_increasing_witness :
    validRegCount [Op.register "alice" 0 ⟨"Rex", "Lab", "Brown", "uri"⟩,
      Op.register "bob" 1 ⟨"Milo", "Cat", "Black", "fur"⟩] < u64Mod ∧
    (List.Pairwise (· < ·)
      (regIds initState [Op.register "alice" 0 ⟨"Rex", "Lab", "Brown", "uri"⟩,
        Op.register "bob" 1 ⟨"Milo", "Cat", "Black", "fur"⟩]) ∧
     (regIds initState [Op.register "alice" 0 ⟨"Rex", "Lab", "Brown", "uri"⟩,
        Op.register "bob" 1 ⟨"Milo", "Cat", "Black", "fur"⟩]).Nodup ∧
     (0 < validRegCount [Op.register "alice" 0 ⟨"Rex", "Lab", "Brown", "uri"⟩,
        Op.register "bob" 1 ⟨"Milo", "Cat", "Black", "fur"⟩] →
      (regIds initState [Op.register "alice" 0 ⟨"Rex", "Lab", "Brown", "uri"⟩,
        Op.register "bob" 1 ⟨"Milo", "Cat", "Black", "fur"⟩]).head? = some 1)) :=
  ⟨by decide, register_ids_strictly_increasing _ (by decide)⟩

end PetFinder
